import Mathlib

/-!
Verification development for the PlexAddons backend's rate limiter and
tiered quota / version-retention enforcement.

The definitions below are a shallow embedding of the Python source:
  app/models/__init__.py        (data model: User, Addon, Version, tickets)
  app/config.py                 (tier limits, default values)
  app/utils/__init__.py         (calculate_storage_size)
  app/utils/semver.py           (parse_version, is_valid_version)
  app/services/user_service.py  (calculate_storage_used, tier tables)
  app/services/version_service.py (quota, version limit, cleanup, create,
                                   update, delete)
  app/api/deps.py               (get_effective_tier, rate_limit_check)
  app/core/rate_limit.py        (sliding-window rate limiter, middleware)

Database state is explicit (a record of rows), timestamps are naturals
(seconds), and fallible operations return the possibly-mutated state next
to an `Except`, because the Python service commits intermediate state
before raising in some paths.  Strings are modelled as Lean `String`s and
byte sizes via `String.utf8ByteSize`, matching `len(s.encode("utf-8"))`
on the ASCII inputs considered here (Python's regex `\w`/`\d` classes and
`str.strip` are modelled at ASCII granularity).
-/

/-- Subscription tiers, from `SubscriptionTier` in app/models/__init__.py. -/
inductive SubscriptionTier where
  | free
  | pro
  | premium
deriving DecidableEq, Repr

/-- The `.value` string of a tier (the Python enum is a str-enum). -/
def tier_value : SubscriptionTier → String
  | .free => "free"
  | .pro => "pro"
  | .premium => "premium"

/- Configuration defaults from app/config.py (Settings).  The pydantic
settings object can be overridden by environment variables; the defaults
are used throughout this development. -/

def rate_limit_public : Nat := 100
def rate_limit_auth_endpoints : Nat := 30
def rate_limit_user_free : Nat := 100
def rate_limit_user_pro : Nat := 300
def rate_limit_user_premium : Nat := 1000

def storage_quota_free : Nat := 5 * 1024 * 1024
def storage_quota_pro : Nat := 100 * 1024 * 1024
def storage_quota_premium : Nat := 1 * 1024 * 1024 * 1024

def version_limit_free : Int := 3
def version_limit_pro : Int := 10
def version_limit_premium : Int := -1  -- sentinel: unlimited

/-- User row (app/models/__init__.py, class User).  Only the columns read
or written by the quota / rate-limit code paths are modelled; profile,
OAuth and webhook columns are elided. -/
structure User where
  id : Nat
  subscription_tier : SubscriptionTier
  storage_used_bytes : Nat
  storage_quota_bytes : Nat
  temp_tier : Option SubscriptionTier
  temp_tier_expires_at : Option Nat
deriving DecidableEq, Repr

/-- Addon row (class Addon).  Text fields that feed storage accounting,
ownership and the last-modified marker; flags and tags are elided. -/
structure Addon where
  id : Nat
  owner_id : Nat
  name : String
  slug : String
  description : Option String
  homepage : Option String
  updated_at : Nat
deriving DecidableEq, Repr

/-- Version row (class Version).  Scheduling / rollout columns elided. -/
structure Version where
  id : Nat
  addon_id : Nat
  version : String
  release_date : Nat
  download_url : String
  changelog_url : Option String
  description : Option String
  changelog_content : Option String
  breaking : Bool
  urgent : Bool
  storage_size_bytes : Nat
  created_at : Nat
deriving DecidableEq, Repr

/-- Ticket row (class Ticket): only the opener is needed for storage. -/
structure Ticket where
  id : Nat
  user_id : Nat
deriving DecidableEq, Repr

/-- Ticket message row (class TicketMessage): the join key to its ticket. -/
structure TicketMessage where
  id : Nat
  ticket_id : Nat
deriving DecidableEq, Repr

/-- Ticket attachment row (class TicketAttachment). -/
structure TicketAttachment where
  id : Nat
  message_id : Nat
  file_size : Nat
deriving DecidableEq, Repr

/-- The relational state the two components read and write. -/
structure DB where
  users : List User
  addons : List Addon
  versions : List Version
  tickets : List Ticket
  ticket_messages : List TicketMessage
  ticket_attachments : List TicketAttachment
deriving DecidableEq, Repr

/-- app/utils/__init__.py `calculate_storage_size`: UTF-8 byte length. -/
def calculate_storage_size (content : String) : Nat :=
  content.utf8ByteSize

/-- user_service.py `_calculate_string_size`: 0 for NULL columns. -/
def _calculate_string_size (s : Option String) : Nat :=
  match s with
  | none => 0
  | some t => t.utf8ByteSize

/-- Bytes contributed by one version row (the loop body over
`addon.versions` in `calculate_storage_used`). -/
def version_bytes (v : Version) : Nat :=
  calculate_storage_size v.version + calculate_storage_size v.download_url +
    _calculate_string_size v.changelog_url + _calculate_string_size v.description +
    _calculate_string_size v.changelog_content

/-- Bytes contributed by one addon row's own text fields. -/
def addon_own_bytes (a : Addon) : Nat :=
  calculate_storage_size a.name + calculate_storage_size a.slug +
    _calculate_string_size a.description + _calculate_string_size a.homepage

/-- An addon's text fields plus all of its versions' text fields
(`addon.versions` is the relation `Version.addon_id == Addon.id`). -/
def addon_total_bytes (versions : List Version) (a : Addon) : Nat :=
  addon_own_bytes a +
    ((versions.filter (fun v => v.addon_id == a.id)).map version_bytes).sum

/-- Attachment bytes for tickets opened by the user: the
attachment -> message -> ticket join in `calculate_storage_used`. -/
def attachment_bytes (db : DB) (user_id : Nat) : Nat :=
  ((db.ticket_attachments.filter (fun att =>
      db.ticket_messages.any (fun m =>
        m.id == att.message_id &&
          db.tickets.any (fun t => t.id == m.ticket_id && t.user_id == user_id)))).map
    (fun att => att.file_size)).sum

/-- user_service.py `UserService.calculate_storage_used`: live sum over
the user's addons, their versions, and their ticket attachments. -/
def calculate_storage_used (db : DB) (user_id : Nat) : Nat :=
  ((db.addons.filter (fun a => a.owner_id == user_id)).map
      (addon_total_bytes db.versions)).sum
    + attachment_bytes db user_id

/-- user_service.py `UserService.update_storage_used`: recompute and store
the informational cached counter on the user row. -/
def update_storage_used (db : DB) (user : User) : DB :=
  let su := calculate_storage_used db user.id
  { db with
    users := db.users.map (fun u =>
      if u.id == user.id then { u with storage_used_bytes := su } else u) }

/-- user_service.py `UserService.get_storage_quota_for_tier`. -/
def get_storage_quota_for_tier : SubscriptionTier → Nat
  | .free => storage_quota_free
  | .pro => storage_quota_pro
  | .premium => storage_quota_premium

/-- user_service.py `UserService.get_version_limit_for_tier` (-1 means
unlimited). -/
def get_version_limit_for_tier : SubscriptionTier → Int
  | .free => version_limit_free
  | .pro => version_limit_pro
  | .premium => version_limit_premium

/-- user_service.py `UserService.update_user_tier`: sets the persisted
tier and the quota column from the tier table (badge bookkeeping, which
touches no tier or quota column, is elided). -/
def update_user_tier (db : DB) (user : User) (tier : SubscriptionTier) :
    DB × User :=
  let user' := { user with
    subscription_tier := tier
    storage_quota_bytes := get_storage_quota_for_tier tier }
  ({ db with
      users := db.users.map (fun u => if u.id == user.id then user' else u) },
    user')

/-- version_service.py `VersionService.get_version_count`. -/
def get_version_count (db : DB) (addon_id : Nat) : Nat :=
  (db.versions.filter (fun v => v.addon_id == addon_id)).length

/-- version_service.py `VersionService.get_version_by_addon_and_version`. -/
def get_version_by_addon_and_version (db : DB) (addon_id : Nat)
    (version_str : String) : Option Version :=
  (db.versions.filter (fun v =>
    v.addon_id == addon_id && v.version == version_str)).head?

/-- version_service.py `VersionService.check_version_limit`: the limit is
selected by the user's persisted `subscription_tier`. -/
def check_version_limit (db : DB) (addon : Addon) (user : User) : Bool :=
  let limit := get_version_limit_for_tier user.subscription_tier
  if limit == -1 then true
  else decide ((get_version_count db addon.id : Int) < limit)

/-- version_service.py `VersionService.check_storage_quota`: usage is
recomputed live, then compared against the user's persisted
`storage_quota_bytes` column. -/
def check_storage_quota (db : DB) (user : User) (new_content_size : Nat)
    (existing_size : Nat) : Bool :=
  let current_usage : Int := calculate_storage_used db user.id
  decide (current_usage - existing_size + new_content_size ≤
    (user.storage_quota_bytes : Int))

/-- The `ORDER BY release_date DESC, created_at DESC` comparator used by
`cleanup_old_versions` (v sorts before w under this order). -/
def version_order (v w : Version) : Bool :=
  w.release_date < v.release_date ||
    (w.release_date == v.release_date && decide (w.created_at ≤ v.created_at))

/-- Propositional form of the comparator, for the sort. -/
def version_order_rel (v w : Version) : Prop :=
  version_order v w = true

instance : DecidableRel version_order_rel := fun v w =>
  inferInstanceAs (Decidable (version_order v w = true))

/-- The `ORDER BY release_date DESC, created_at DESC` result: a stable
sort of the addon's versions under `version_order`. -/
def sorted_versions (db : DB) (addon_id : Nat) : List Version :=
  (db.versions.filter (fun v => v.addon_id == addon_id)).insertionSort
    version_order_rel

/-- version_service.py `VersionService.cleanup_old_versions`: keep the
newest `limit` versions of the addon, delete the rest, recompute the
user's storage counter, and report how many rows were deleted. -/
def cleanup_old_versions (db : DB) (addon : Addon) (user : User) :
    DB × Nat :=
  let limit := get_version_limit_for_tier user.subscription_tier
  if limit == -1 then (db, 0)
  else
    let sorted := sorted_versions db addon.id
    let keep_ids := (sorted.take limit.toNat).map (fun v => v.id)
    if keep_ids.isEmpty then (db, 0)
    else
      let remaining := db.versions.filter (fun w =>
        !(w.addon_id == addon.id && !(keep_ids.contains w.id)))
      let deleted_count := db.versions.length - remaining.length
      let db1 := { db with versions := remaining }
      (update_storage_used db1 user, deleted_count)

/- ===== semver validation (app/utils/semver.py) ===== -/

/-- ASCII reading of the regex character class `[\w.]`. -/
def is_word_dot_char (c : Char) : Bool :=
  c.isAlphanum || c == '_' || c == '.'

/-- ASCII whitespace stripped by Python's `str.strip()`. -/
def is_py_space (c : Char) : Bool :=
  c == ' ' || c == '\t' || c == '\n' || c == '\r' || c == '\x0b' || c == '\x0c'

/-- `version.strip()`. -/
def py_strip (s : String) : String :=
  ⟨((s.toList.dropWhile is_py_space).reverse.dropWhile is_py_space).reverse⟩

/-- Decimal reading of a digit run, as Python's `int`. -/
def digits_to_nat (ds : List Char) : Nat :=
  ds.foldl (fun acc c => acc * 10 + (c.toNat - 48)) 0

/-- One optional suffix group of the regex, `(?:<marker>[\w.]+)?`: if the
input starts with the marker, a nonempty `[\w.]` run must follow and is
consumed; otherwise the input is left untouched. -/
def suffix_rest (marker : Char) (cs : List Char) : Option (List Char) :=
  match cs with
  | [] => some []
  | c :: rest =>
    if c == marker then
      if (rest.takeWhile is_word_dot_char).isEmpty then none
      else some (rest.dropWhile is_word_dot_char)
    else some (c :: rest)

/-- semver.py `parse_version`: match the stripped string against
the anchored pattern MAJOR.MINOR.PATCH with optional pre-release and
build-metadata suffixes, returning the three numbers. -/
def parse_version (version : String) : Option (Nat × Nat × Nat) :=
  let cs := (py_strip version).toList
  let d1 := cs.takeWhile Char.isDigit
  let r1 := cs.dropWhile Char.isDigit
  if d1.isEmpty then none
  else
    match r1 with
    | '.' :: r2 =>
      let d2 := r2.takeWhile Char.isDigit
      let r3 := r2.dropWhile Char.isDigit
      if d2.isEmpty then none
      else
        match r3 with
        | '.' :: r4 =>
          let d3 := r4.takeWhile Char.isDigit
          let r5 := r4.dropWhile Char.isDigit
          if d3.isEmpty then none
          else
            match suffix_rest '-' r5 with
            | none => none
            | some r6 =>
              match suffix_rest '+' r6 with
              | none => none
              | some r7 =>
                if r7.isEmpty then
                  some (digits_to_nat d1, digits_to_nat d2, digits_to_nat d3)
                else none
        | _ => none
    | _ => none

/-- semver.py `is_valid_version`. -/
def is_valid_version (version : String) : Bool :=
  (parse_version version).isSome

/- ===== version write paths (app/services/version_service.py) ===== -/

/-- The business-rule exceptions raised by the version write paths
(app/core/exceptions.py); the interpolated parts of the BadRequestError
messages are elided. -/
inductive Err where
  | badRequest (msg : String)
  | storageQuotaExceeded
  | versionLimitExceeded
deriving DecidableEq, Repr

/-- Request body for publishing a version (schemas.VersionCreate). -/
structure VersionCreate where
  version : String
  download_url : String
  description : Option String
  changelog_url : Option String
  changelog_content : Option String
  breaking : Bool
  urgent : Bool
  release_date : Option Nat
deriving DecidableEq, Repr

/-- Request body for editing a version (schemas.VersionUpdate); `none`
models an unset field. -/
structure VersionUpdate where
  download_url : Option String
  description : Option String
  changelog_url : Option String
  changelog_content : Option String
  breaking : Option Bool
  urgent : Option Bool
deriving DecidableEq, Repr

/-- version_service.py `VersionService.create_version`.  `new_id` is the
fresh primary key, `today` models `date.today()` and `now` the row's
`created_at`.  The state is returned next to the outcome because the
cleanup pass commits its deletions before the limit re-check can raise. -/
def create_version (db : DB) (addon : Addon) (user : User)
    (data : VersionCreate) (new_id today now : Nat) :
    DB × Except Err Version :=
  if !is_valid_version data.version then
    (db, .error (.badRequest "Invalid version format"))
  else if (get_version_by_addon_and_version db addon.id data.version).isSome then
    (db, .error (.badRequest "Version already exists for this addon"))
  else
    let content_size := calculate_storage_size (data.changelog_content.getD "")
      + calculate_storage_size (data.description.getD "")
    if !check_storage_quota db user content_size 0 then
      (db, .error .storageQuotaExceeded)
    else
      let step : DB × Bool :=
        if check_version_limit db addon user then (db, true)
        else
          let db1 := (cleanup_old_versions db addon user).1
          (db1, check_version_limit db1 addon user)
      if !step.2 then (step.1, .error .versionLimitExceeded)
      else
        let version : Version := {
          id := new_id
          addon_id := addon.id
          version := data.version
          release_date := data.release_date.getD today
          download_url := data.download_url
          changelog_url := data.changelog_url
          description := data.description
          changelog_content := data.changelog_content
          breaking := data.breaking
          urgent := data.urgent
          storage_size_bytes := content_size
          created_at := now }
        let db2 := { step.1 with versions := step.1.versions ++ [version] }
        let db3 := { db2 with
          addons := db2.addons.map (fun a =>
            if a.id == addon.id then { a with updated_at := version.created_at }
            else a) }
        (update_storage_used db3 user, .ok version)

/-- Field application of a VersionUpdate (the `model_dump(exclude_unset)`
loop in `update_version`). -/
def apply_version_update (v : Version) (d : VersionUpdate) : Version :=
  { v with
    download_url := d.download_url.getD v.download_url
    description := match d.description with
      | some s => some s
      | none => v.description
    changelog_url := match d.changelog_url with
      | some s => some s
      | none => v.changelog_url
    changelog_content := match d.changelog_content with
      | some s => some s
      | none => v.changelog_content
    breaking := d.breaking.getD v.breaking
    urgent := d.urgent.getD v.urgent }

/-- The new content size computed at the top of `update_version`: edited
fields replace stored ones, unset fields keep the stored value. -/
def updated_content_size (version : Version) (data : VersionUpdate) : Nat :=
  let new_content := match data.changelog_content with
    | some c => some c
    | none => version.changelog_content
  let new_description := match data.description with
    | some d => some d
    | none => version.description
  calculate_storage_size (new_content.getD "")
    + calculate_storage_size (new_description.getD "")

/-- version_service.py `VersionService.update_version`: the storage-quota
check runs only when the new content size strictly exceeds the stored
size of the row being edited. -/
def update_version (db : DB) (version : Version) (user : User)
    (data : VersionUpdate) : DB × Except Err Version :=
  let new_size := updated_content_size version data
  let size_diff : Int := (new_size : Int) - (version.storage_size_bytes : Int)
  if size_diff > 0 && !check_storage_quota db user size_diff.toNat 0 then
    (db, .error .storageQuotaExceeded)
  else
    let version' := { apply_version_update version data with
      storage_size_bytes := new_size }
    let db1 := { db with
      versions := db.versions.map (fun w =>
        if w.id == version.id then version' else w) }
    (update_storage_used db1 user, .ok version')

/-- version_service.py `VersionService.delete_version`. -/
def delete_version (db : DB) (version : Version) (user : User) : DB :=
  let db1 := { db with
    versions := db.versions.filter (fun w => !(w.id == version.id)) }
  update_storage_used db1 user

/- ===== effective tier (app/api/deps.py) ===== -/

/-- deps.py `get_effective_tier`: the temporary grant wins while both
temp columns are set and the expiry is still in the future. -/
def get_effective_tier (user : User) (now : Nat) : SubscriptionTier :=
  match user.temp_tier, user.temp_tier_expires_at with
  | some t, some e => if now < e then t else user.subscription_tier
  | _, _ => user.subscription_tier

/-- deps.py `rate_limit_check` passes `user.subscription_tier.value` as
the tier that selects the per-user rate limit. -/
def rate_limit_check_tier_arg (user : User) : String :=
  tier_value user.subscription_tier

/- ===== sliding-window rate limiter (app/core/rate_limit.py) ===== -/

/-- The limiter's window width in seconds (`self.window_size`). -/
def window_size : Nat := 60

/-- Result of one `RateLimiter._check_limit` call, together with the
key's sorted set after the call.  The Redis sorted set for a key is
modelled as the list of stored request timestamps (the member of each
entry is `str(now)`, so members coincide with scores). -/
structure LimitResult where
  allowed : Bool
  remaining : Nat
  reset_time : Nat
  store : List Nat
deriving DecidableEq, Repr

/-- rate_limit.py `RateLimiter._check_limit`: atomically prune entries
with score at most `now - 60`, count, add `now`, and if the count before
the add already reached the limit, roll the add back and reject.
Python's `max(0, limit - count - 1)` is truncated natural subtraction. -/
def _check_limit (store : List Nat) (limit : Nat) (now : Nat) : LimitResult :=
  let window_start : Int := (now : Int) - window_size
  let store1 := store.filter (fun (t : Nat) => !decide ((t : Int) ≤ window_start))
  let current_count := store1.length
  let store2 := if store1.contains now then store1 else store1 ++ [now]
  let remaining := limit - current_count - 1
  let reset_time := now + window_size
  if current_count ≥ limit then
    { allowed := false, remaining := 0, reset_time := reset_time,
      store := store2.filter (fun t => !(t == now)) }
  else
    { allowed := true, remaining := remaining, reset_time := reset_time,
      store := store2 }

/-- rate_limit.py `RateLimiter.check_ip_limit`: per-endpoint-class limit
selection (`limits.get(endpoint_type, rate_limit_public)`). -/
def ip_limit_for (endpoint_type : String) : Nat :=
  if endpoint_type == "auth" then rate_limit_auth_endpoints
  else rate_limit_public

/-- rate_limit.py `RateLimiter.check_user_limit`: per-tier limit
selection (`limits.get(tier, rate_limit_user_free)`). -/
def user_limit_for (tier : String) : Nat :=
  if tier == "free" then rate_limit_user_free
  else if tier == "pro" then rate_limit_user_pro
  else if tier == "premium" then rate_limit_user_premium
  else rate_limit_user_free

/-- A run of consecutive `_check_limit` calls against one key, returning
the `(allowed, remaining)` pair reported for each request and the final
sorted set. -/
def run_requests (limit : Nat) : List Nat → List Nat →
    List (Bool × Nat) × List Nat
  | [], store => ([], store)
  | t :: ts, store =>
    let r := _check_limit store limit t
    let rest := run_requests limit ts r.store
    ((r.allowed, r.remaining) :: rest.1, rest.2)

/-- The shared store as the middleware sees it: a reachability flag (a
Redis operation raises `redis.RedisError` when it is down) and the two
sorted sets touched by one request's checks. -/
structure RedisState where
  down : Bool
  ip_store : List Nat
  user_store : List Nat
deriving DecidableEq, Repr

/-- The `X-RateLimit-*` headers attached by the middleware; the user
dimension is absent for unauthenticated requests. -/
structure RateHeaders where
  ip_limit : Nat
  ip_remaining : Nat
  ip_reset : Nat
  user_limit : Option Nat
  user_remaining : Option Nat
  user_reset : Option Nat
deriving DecidableEq, Repr

/-- Outcome of `RateLimitMiddleware.check_rate_limit`: headers returned
on success, HTTP 429 with headers on a limit rejection, HTTP 503 when a
store operation raised `redis.RedisError`. -/
inductive RateOutcome where
  | ok (headers : RateHeaders)
  | tooManyRequests (headers : RateHeaders)
  | serviceUnavailable
deriving DecidableEq, Repr

/-- rate_limit.py `RateLimitMiddleware.check_rate_limit`: IP check first,
then the user check only if the request is authenticated and the IP check
passed; any `redis.RedisError` is caught and turned into HTTP 503 (fail
closed). -/
def check_rate_limit (redis : RedisState) (user : Option (Nat × String))
    (endpoint_type : String) (now : Nat) : RedisState × RateOutcome :=
  if redis.down then (redis, .serviceUnavailable)
  else
    let ip_limit := ip_limit_for endpoint_type
    let r1 := _check_limit redis.ip_store ip_limit now
    let redis1 := { redis with ip_store := r1.store }
    let headers1 : RateHeaders := {
      ip_limit := ip_limit
      ip_remaining := r1.remaining
      ip_reset := r1.reset_time
      user_limit := none
      user_remaining := none
      user_reset := none }
    if !r1.allowed then (redis1, .tooManyRequests headers1)
    else
      match user with
      | none => (redis1, .ok headers1)
      | some (_, tier) =>
        let user_limit := user_limit_for tier
        let r2 := _check_limit redis1.user_store user_limit now
        let redis2 := { redis1 with user_store := r2.store }
        let headers2 := { headers1 with
          user_limit := some user_limit
          user_remaining := some r2.remaining
          user_reset := some r2.reset_time }
        if !r2.allowed then (redis2, .tooManyRequests headers2)
        else (redis2, .ok headers2)

/- ===== spec-side comparison definitions =====

The next three definitions follow the specification's words, not the
source, and exist only to be compared with the source-derived deciders
above.  The spec requires every quota and rate decision to be gated by
the *effective* tier (temporary grant when set and unexpired, else the
persisted tier). -/

/-- Spec wording of `checkVersionLimit(addonId, effectiveTier)`: version
count strictly below the effective tier's limit, unlimited always true. -/
def spec_check_version_limit (db : DB) (addon : Addon) (user : User)
    (now : Nat) : Bool :=
  let limit := get_version_limit_for_tier (get_effective_tier user now)
  if limit == -1 then true
  else decide ((get_version_count db addon.id : Int) < limit)

/-- Spec wording of `checkStorageQuota(userId, additionalBytes,
replacingBytes)`: live usage compared against the byte quota of the
user's effective tier. -/
def spec_check_storage_quota (db : DB) (user : User)
    (additional_bytes replacing_bytes now : Nat) : Bool :=
  decide ((calculate_storage_used db user.id : Int) - replacing_bytes
    + additional_bytes ≤
    (get_storage_quota_for_tier (get_effective_tier user now) : Int))

/-- Spec wording of `checkUserLimit(userId, effectiveTier)`: the per-user
rate limit is selected by the effective tier. -/
def spec_rate_limit_tier_arg (user : User) (now : Nat) : String :=
  tier_value (get_effective_tier user now)

/- ===== concrete fixtures for witnesses and counterexamples ===== -/

/-- A Free-tier user with the Free quota column and no temporary grant. -/
def user_free_1 : User :=
  { id := 1
    subscription_tier := .free
    storage_used_bytes := 0
    storage_quota_bytes := 5242880
    temp_tier := none
    temp_tier_expires_at := none }

/-- The same user holding an unexpired temporary Premium grant (expiry
at t = 1000); the persisted tier and quota column are untouched, exactly
as `grant_temp_tier` in app/api/v1/admin.py leaves them. -/
def user_temp_premium : User :=
  { user_free_1 with
    temp_tier := some .premium
    temp_tier_expires_at := some 1000 }

/-- An addon owned by user 1. -/
def addon_foo : Addon :=
  { id := 1
    owner_id := 1
    name := "Foo"
    slug := "foo"
    description := none
    homepage := none
    updated_at := 0 }

/-- The i-th version row of addon 1 (release dates and creation times
increase with i, so row 0 is the oldest). -/
def vrow (i : Nat) : Version :=
  { id := i + 1
    addon_id := 1
    version := "1.0." ++ toString i
    release_date := i
    download_url := "u"
    changelog_url := none
    description := none
    changelog_content := none
    breaking := false
    urgent := false
    storage_size_bytes := 1
    created_at := i }

/-- Addon 1 at the Free-tier version limit: exactly 3 stored versions. -/
def db_three : DB :=
  { users := [user_free_1]
    addons := [addon_foo]
    versions := [vrow 0, vrow 1, vrow 2]
    tickets := []
    ticket_messages := []
    ticket_attachments := [] }

/-- A state whose live storage usage (6000000 bytes of ticket
attachments) already exceeds the Free quota column (5242880). -/
def db_attach : DB :=
  { users := [user_free_1]
    addons := [addon_foo]
    versions := []
    tickets := [{ id := 1, user_id := 1 }]
    ticket_messages := [{ id := 1, ticket_id := 1 }]
    ticket_attachments := [{ id := 1, message_id := 1, file_size := 6000000 }] }

/-- A fresh, valid, non-duplicate publish request. -/
def data_new : VersionCreate :=
  { version := "1.0.3"
    download_url := "u"
    description := none
    changelog_url := none
    changelog_content := none
    breaking := false
    urgent := false
    release_date := none }

/-- An empty state owned by user 1, for the create/delete round trip. -/
def db_empty : DB :=
  { users := [user_free_1]
    addons := [addon_foo]
    versions := []
    tickets := []
    ticket_messages := []
    ticket_attachments := [] }

/-- The row `create_version db_empty addon_foo user_free_1 data_new 10
100 100` persists. -/
def v_new : Version :=
  { id := 10
    addon_id := 1
    version := "1.0.3"
    release_date := 100
    download_url := "u"
    changelog_url := none
    description := none
    changelog_content := none
    breaking := false
    urgent := false
    storage_size_bytes := 0
    created_at := 100 }

/-- An edit that shrinks the changelog of version row `vrow 0`. -/
def data_shrink : VersionUpdate :=
  { download_url := none
    description := none
    changelog_url := none
    changelog_content := some ""
    breaking := none
    urgent := none }

/-- `db_attach` with one version row to edit (its stored size covers the
shrunken content). -/
def db_attach_v : DB :=
  { db_attach with versions := [vrow 0] }

/-- A publish request with a malformed version string. -/
def data_invalid : VersionCreate :=
  { data_new with version := "abc" }

/-- A publish request duplicating the stored version string of `vrow 0`. -/
def data_dup : VersionCreate :=
  { data_new with version := "1.0.0" }

/- ===== theorems ===== -/

/-- C1 (code bug): with addon 1 exactly at the Free-tier version limit
(3 stored versions) and a valid, non-duplicate, quota-fitting publish
request, `create_version` deletes nothing (`cleanup_old_versions` keeps
the `limit` newest rows, which is all of them) and rejects the publish
with `VersionLimitExceededError`, instead of evicting the single oldest
version and persisting the new one as the specification states. -/
theorem at_limit_publish_rejected_without_eviction :
    get_version_limit_for_tier user_free_1.subscription_tier = 3 ∧
    get_version_count db_three addon_foo.id = 3 ∧
    is_valid_version data_new.version = true ∧
    get_version_by_addon_and_version db_three addon_foo.id data_new.version
      = none ∧
    check_storage_quota db_three user_free_1 0 0 = true ∧
    (cleanup_old_versions db_three addon_foo user_free_1).2 = 0 ∧
    (create_version db_three addon_foo user_free_1 data_new 10 100 100).2 =
      .error .versionLimitExceeded ∧
    (create_version db_three addon_foo user_free_1 data_new 10 100 100).1.versions
      = db_three.versions :=
  ⟨rfl, rfl, by decide, by decide, by decide, by decide, rfl, by decide⟩

/-- C2 (counterexample): a user persisted on Free with an unexpired
temporary Premium grant.  The effective tier is Premium, under which the
spec-side version-limit check passes (unlimited) and the per-user rate
limit would be 1000/min; the source-side checks keep using the persisted
Free tier: the version-limit check fails at 3 versions and the rate
limiter is handed the "free" tier (100/min). -/
theorem version_and_rate_limits_ignore_unexpired_temp_tier :
    get_effective_tier user_temp_premium 500 = .premium ∧
    check_version_limit db_three addon_foo user_temp_premium = false ∧
    spec_check_version_limit db_three addon_foo user_temp_premium 500 = true ∧
    rate_limit_check_tier_arg user_temp_premium = "free" ∧
    spec_rate_limit_tier_arg user_temp_premium 500 = "premium" ∧
    user_limit_for (rate_limit_check_tier_arg user_temp_premium) = 100 ∧
    user_limit_for (spec_rate_limit_tier_arg user_temp_premium 500) = 1000 := by
  decide

/-- C2 (amended): the version-limit check, the storage-quota check, the
eviction pass, and the tier argument handed to the per-user rate limiter
are all invariant under the temporary-grant columns — they read only the
persisted subscription tier and quota column. -/
theorem quota_and_rate_decisions_use_persisted_tier (db : DB) (addon : Addon)
    (user : User) (g : Option SubscriptionTier) (e : Option Nat) (n m : Nat) :
    check_version_limit db addon
        { user with temp_tier := g, temp_tier_expires_at := e } =
      check_version_limit db addon user ∧
    check_storage_quota db
        { user with temp_tier := g, temp_tier_expires_at := e } n m =
      check_storage_quota db user n m ∧
    cleanup_old_versions db addon
        { user with temp_tier := g, temp_tier_expires_at := e } =
      cleanup_old_versions db addon user ∧
    rate_limit_check_tier_arg
        { user with temp_tier := g, temp_tier_expires_at := e } =
      rate_limit_check_tier_arg user :=
  ⟨rfl, rfl, rfl, rfl⟩

/-- C4: whenever the shared store is unreachable (any Redis operation
raises), `check_rate_limit` reports service-unavailable (HTTP 503) and
never lets the request through ungated. -/
theorem rate_limit_fails_closed_on_store_outage (redis : RedisState)
    (user : Option (Nat × String)) (endpoint_type : String) (now : Nat)
    (h : redis.down = true) :
    check_rate_limit redis user endpoint_type now =
      (redis, .serviceUnavailable) := by
  unfold check_rate_limit
  rw [h]
  rfl

/-- Witness for C4 at a concrete outage state. -/
theorem rate_limit_fails_closed_on_store_outage_witness :
    check_rate_limit { down := true, ip_store := [], user_store := [] }
        (some (1, "free")) "public" 0 =
      ({ down := true, ip_store := [], user_store := [] },
        .serviceUnavailable) :=
  rate_limit_fails_closed_on_store_outage _ _ _ _ rfl

/-- C5 (counterexample): the same temp-Premium user as in C2, in a state
whose live usage (6000006 bytes) exceeds the persisted Free quota column
but is far below the Premium quota.  The source-side `check_storage_quota`
compares against the persisted `storage_quota_bytes` column and rejects;
the spec-side check against the effective tier's quota would accept. -/
theorem storage_quota_uses_column_not_effective_tier :
    get_effective_tier user_temp_premium 500 = .premium ∧
    calculate_storage_used db_attach user_temp_premium.id = 6000006 ∧
    check_storage_quota db_attach user_temp_premium 100 0 = false ∧
    spec_check_storage_quota db_attach user_temp_premium 100 0 500 = true := by
  decide

/-- C5 (amended): `check_storage_quota` returns true iff the live usage
(recomputed from rows, ignoring the cached `storage_used_bytes` column)
minus the replaced bytes plus the additional bytes fits within the user's
persisted `storage_quota_bytes` column — the column `update_user_tier`
fills from the tier table when the persisted tier changes. -/
theorem check_storage_quota_live_usage_vs_quota_column (db : DB) (user : User)
    (add repl cached : Nat) (t : SubscriptionTier) :
    check_storage_quota db { user with storage_used_bytes := cached } add repl
      = check_storage_quota db user add repl ∧
    (check_storage_quota db user add repl = true ↔
      (calculate_storage_used db user.id : Int) - repl + add ≤
        (user.storage_quota_bytes : Int)) ∧
    (update_user_tier db user t).2.storage_quota_bytes =
      get_storage_quota_for_tier t := by
  refine ⟨rfl, ?_, rfl⟩
  simp [check_storage_quota]

/-- C6: a publish request that is well formed and not a duplicate but
fails the storage-quota check is rejected with `StorageQuotaExceededError`
and leaves the state untouched: no version row, no storage change, no
last-modified update. -/
theorem create_version_rejects_over_quota (db : DB) (addon : Addon)
    (user : User) (data : VersionCreate) (new_id today now : Nat)
    (hval : is_valid_version data.version = true)
    (hdup : get_version_by_addon_and_version db addon.id data.version = none)
    (hquota : check_storage_quota db user
      (calculate_storage_size (data.changelog_content.getD "") +
        calculate_storage_size (data.description.getD "")) 0 = false) :
    create_version db addon user data new_id today now =
      (db, .error .storageQuotaExceeded) := by
  simp [create_version, hval, hdup, hquota]

/-- Witness for C6: a user whose 6000006 bytes of live usage already
exceed the Free quota column; publishing is rejected and the state is
returned unchanged. -/
theorem create_version_rejects_over_quota_witness :
    create_version db_attach addon_foo user_free_1 data_new 10 100 100 =
      (db_attach, .error .storageQuotaExceeded) :=
  create_version_rejects_over_quota db_attach addon_foo user_free_1 data_new
    10 100 100 (by decide) (by decide) (by decide)

/-- C8: while both temporary-grant columns are set, the effective tier is
the granted tier exactly until the expiry timestamp; from the expiry on it
is the persisted subscription tier again, with no revoke step involved. -/
theorem effective_tier_follows_unexpired_grant (user : User)
    (g : SubscriptionTier) (e now : Nat)
    (hg : user.temp_tier = some g) (he : user.temp_tier_expires_at = some e) :
    (now < e → get_effective_tier user now = g) ∧
    (e ≤ now → get_effective_tier user now = user.subscription_tier) := by
  unfold get_effective_tier
  rw [hg, he]
  constructor
  · intro h
    simp [h]
  · intro h
    simp [Nat.not_lt.mpr h]

/-- Witness for C8: the temp-Premium grant expiring at t = 1000 yields
Premium at t = 500 and reverts to the persisted Free tier at t = 1500. -/
theorem effective_tier_follows_unexpired_grant_witness :
    get_effective_tier user_temp_premium 500 = .premium ∧
    get_effective_tier user_temp_premium 1500 = .free :=
  ⟨(effective_tier_follows_unexpired_grant user_temp_premium .premium 1000 500
      rfl rfl).1 (by decide),
    (effective_tier_follows_unexpired_grant user_temp_premium .premium 1000 1500
      rfl rfl).2 (by decide)⟩

/-- C9: `create_version` rejects a malformed version string, or a version
string already stored for the addon, with the corresponding validation
error and an unchanged state — for every state, in particular ones where
the storage-quota or version-limit checks would also fail, so validation
is decided before any quota check. -/
theorem create_version_validates_before_quota (db : DB) (addon : Addon)
    (user : User) (data : VersionCreate) (new_id today now : Nat) :
    (is_valid_version data.version = false →
      create_version db addon user data new_id today now =
        (db, .error (.badRequest "Invalid version format"))) ∧
    (is_valid_version data.version = true →
      (get_version_by_addon_and_version db addon.id data.version).isSome
          = true →
      create_version db addon user data new_id today now =
        (db, .error (.badRequest "Version already exists for this addon"))) := by
  constructor
  · intro h
    simp [create_version, h]
  · intro h hdup
    simp [create_version, h, hdup]

/-- Witness for C9: "abc" is rejected as malformed and "1.0.0" (already
stored for addon 1) as a duplicate, in a state already at the version
limit. -/
theorem create_version_validates_before_quota_witness :
    create_version db_three addon_foo user_free_1 data_invalid 10 100 100 =
      (db_three, .error (.badRequest "Invalid version format")) ∧
    create_version db_three addon_foo user_free_1 data_dup 10 100 100 =
      (db_three, .error (.badRequest "Version already exists for this addon")) :=
  ⟨(create_version_validates_before_quota db_three addon_foo user_free_1
      data_invalid 10 100 100).1 (by decide),
    (create_version_validates_before_quota db_three addon_foo user_free_1
      data_dup 10 100 100).2 (by decide) (by decide)⟩

/-- C10: when the edited content does not grow (`new_size` at most the
row's stored size), `update_version` runs no storage-quota check and
succeeds, even in a state whose live usage already exceeds the user's
quota column. -/
theorem update_version_skips_quota_check_when_not_growing (db : DB)
    (version : Version) (user : User) (data : VersionUpdate)
    (hsize : updated_content_size version data ≤ version.storage_size_bytes)
    (_hover : user.storage_quota_bytes < calculate_storage_used db user.id) :
    (update_version db version user data).2 =
      .ok { apply_version_update version data with
        storage_size_bytes := updated_content_size version data } := by
  have hdiff : ¬((updated_content_size version data : Int) -
      (version.storage_size_bytes : Int) > 0) := by
    omega
  simp [update_version, hdiff]

/-- Witness for C10: shrinking a changelog to the empty string while the
user's live usage (6000012 bytes) exceeds their 5242880-byte quota column
still succeeds, with no quota error. -/
theorem update_version_skips_quota_check_when_not_growing_witness :
    (update_version db_attach_v (vrow 0) user_free_1 data_shrink).2 =
      .ok { apply_version_update (vrow 0) data_shrink with
        storage_size_bytes := updated_content_size (vrow 0) data_shrink } :=
  update_version_skips_quota_check_when_not_growing db_attach_v (vrow 0)
    user_free_1 data_shrink (by decide) (by decide)

/-- One limiter step against a store whose entries are all strictly
earlier than `now` but still inside the window: nothing is pruned, the
count is the store size, and the outcome depends only on count vs limit. -/
theorem check_limit_fresh_step (s : List Nat) (limit now : Nat)
    (hfresh : ∀ x ∈ s, x < now) (hwin : ∀ x ∈ s, now < x + 60) :
    _check_limit s limit now =
      if s.length < limit then
        { allowed := true, remaining := limit - s.length - 1,
          reset_time := now + window_size, store := s ++ [now] }
      else
        { allowed := false, remaining := 0, reset_time := now + window_size,
          store := s } := by
  have hns : now ∉ s := fun h => absurd (hfresh now h) (lt_irrefl now)
  have h1 : s.filter (fun (t : Nat) =>
      !decide ((t : Int) ≤ (now : Int) - window_size)) = s := by
    apply List.filter_eq_self.mpr
    intro x hx
    have hx60 := hwin x hx
    simp only [window_size] at *
    simp
    omega
  have h2 : s.contains now = false := by simpa using hns
  have h3 : (s ++ [now]).filter (fun t => !(t == now)) = s := by
    rw [List.filter_append]
    have hself : s.filter (fun t => !(t == now)) = s := by
      apply List.filter_eq_self.mpr
      intro x hx
      have := hfresh x hx
      simp
      omega
    rw [hself]
    simp
  unfold _check_limit
  simp only [h1, h2]
  by_cases hl : s.length < limit
  · rw [if_neg (by omega), if_pos hl]
    simp
  · rw [if_pos (by omega), if_neg hl]
    simp only [Bool.false_eq_true, if_false, h3]

/-- Invariant run of the limiter over strictly increasing times inside a
single window, starting from a store holding `min c limit` still-fresh
earlier entries: the k-th request is allowed iff `c + k < limit`, with
reported remaining `limit - (c + k) - 1` (0 when rejected). -/
theorem run_requests_invariant (limit : Nat) (times : List Nat) :
    ∀ (s : List Nat) (c : Nat),
    s.length = min c limit →
    (∀ x ∈ s, ∀ τ ∈ times, x < τ ∧ τ < x + 60) →
    times.Pairwise (· < ·) →
    (∀ a ∈ times, ∀ b ∈ times, b < a + 60) →
    (run_requests limit times s).1 =
      (List.range times.length).map
        (fun k => (decide (c + k < limit), limit - (c + k) - 1)) := by
  induction times with
  | nil =>
    intro s c _ _ _ _
    rfl
  | cons t ts ih =>
    intro s c hlen hinv hmono hwin
    have hfresh : ∀ x ∈ s, x < t := fun x hx =>
      (hinv x hx t (List.mem_cons_self t ts)).1
    have hwin1 : ∀ x ∈ s, t < x + 60 := fun x hx =>
      (hinv x hx t (List.mem_cons_self t ts)).2
    have hstep := check_limit_fresh_step s limit t hfresh hwin1
    have hts : ∀ τ ∈ ts, t < τ := (List.pairwise_cons.mp hmono).1
    have hmono' : ts.Pairwise (· < ·) := (List.pairwise_cons.mp hmono).2
    have hwin' : ∀ a ∈ ts, ∀ b ∈ ts, b < a + 60 := fun a ha b hb =>
      hwin a (List.mem_cons_of_mem t ha) b (List.mem_cons_of_mem t hb)
    have hshift : ∀ k : Nat, c + 1 + k = c + (k + 1) := by omega
    rw [show (t :: ts).length = ts.length + 1 from rfl,
      List.range_succ_eq_map, List.map_cons, List.map_map]
    unfold run_requests
    rw [hstep]
    by_cases hc : c < limit
    · have hlenc : s.length = c := by omega
      rw [if_pos (by omega)]
      have htail := ih (s ++ [t]) (c + 1)
        (by simp [hlenc]; omega)
        (by
          intro x hx τ hτ
          rcases List.mem_append.mp hx with hxs | hxt
          · exact hinv x hxs τ (List.mem_cons_of_mem t hτ)
          · have hxeq : x = t := by simpa using hxt
            rw [hxeq]
            exact ⟨hts τ hτ, hwin t (List.mem_cons_self t ts) τ
              (List.mem_cons_of_mem t hτ)⟩)
        hmono' hwin'
      simp only [run_requests] at htail ⊢
      rw [htail]
      simp only [Function.comp, hshift]
      simp [hlenc, hc]
    · have hlenc : s.length = limit := by omega
      rw [if_neg (by omega)]
      have htail := ih s (c + 1)
        (by omega)
        (fun x hx τ hτ => hinv x hx τ (List.mem_cons_of_mem t hτ))
        hmono' hwin'
      simp only [run_requests] at htail ⊢
      rw [htail]
      simp only [Function.comp, hshift]
      have hdec : decide (c + 0 < limit) = false := by
        simp
        omega
      have h0 : limit - (c + 0) - 1 = 0 := by omega
      simp [hdec, h0]
      omega

/-- C3: any sequence of N strictly increasing request times on one key
inside a single 60-second window, starting from an idle key: the k-th
check (0-based) is allowed iff k < limit — i.e. for N ≤ limit all are
allowed with remaining decreasing to limit - N, and for N > limit the
first `limit` are allowed and every later check is rejected with
remaining 0 (`limit - k - 1` truncates to 0 there). -/
theorem rate_limiter_window_sequence (limit : Nat) (times : List Nat)
    (hmono : times.Pairwise (· < ·))
    (hwin : ∀ a ∈ times, ∀ b ∈ times, b < a + 60) :
    (run_requests limit times []).1 =
      (List.range times.length).map
        (fun k => (decide (k < limit), limit - k - 1)) := by
  have h := run_requests_invariant limit times [] 0 (by simp)
    (by intro x hx; cases hx) hmono hwin
  simpa using h

/-- Witness for C3: limit 2, three in-window requests at 100, 110, 120:
allowed with remaining 1, allowed with remaining 0, rejected with
remaining 0. -/
theorem rate_limiter_window_sequence_witness :
    (run_requests 2 [100, 110, 120] []).1 =
      (List.range 3).map (fun k => (decide (k < 2), 2 - k - 1)) :=
  rate_limiter_window_sequence 2 [100, 110, 120] (by decide) (by decide)

/-- Storage usage only reads addon, version and ticket rows. -/
theorem calc_storage_congr (db1 db2 : DB) (uid : Nat)
    (ha : db1.addons = db2.addons) (hv : db1.versions = db2.versions)
    (ht : db1.tickets = db2.tickets)
    (hm : db1.ticket_messages = db2.ticket_messages)
    (hatt : db1.ticket_attachments = db2.ticket_attachments) :
    calculate_storage_used db1 uid = calculate_storage_used db2 uid := by
  unfold calculate_storage_used attachment_bytes
  rw [ha, hv, ht, hm, hatt]

/-- Touching an addon's last-modified marker changes none of the bytes it
accounts for. -/
theorem addon_total_bytes_touched (vs : List Version) (aid t : Nat)
    (a : Addon) :
    addon_total_bytes vs (if a.id == aid then { a with updated_at := t } else a)
      = addon_total_bytes vs a := by
  split <;> rfl

/-- Summing addon storage over a list is invariant under touching one
addon's last-modified marker. -/
theorem touched_filter_map_sum (vs : List Version) (uid aid t : Nat)
    (l : List Addon) :
    (((l.map (fun a => if a.id == aid then { a with updated_at := t } else a)).filter
        (fun a => a.owner_id == uid)).map (addon_total_bytes vs)).sum =
      ((l.filter (fun a => a.owner_id == uid)).map (addon_total_bytes vs)).sum := by
  induction l with
  | nil => rfl
  | cons a l ih =>
    have howner : (if a.id == aid then { a with updated_at := t } else a).owner_id
        = a.owner_id := by split <;> rfl
    simp only [List.map_cons, List.filter_cons, howner]
    by_cases h : (a.owner_id == uid) = true
    · simp only [h, if_true, List.map_cons, List.sum_cons, ih,
        addon_total_bytes_touched]
    · have h' : (a.owner_id == uid) = false := by simpa using h
      rw [h']
      simp only [Bool.false_eq_true, if_false, ih]

/-- Touching the last-modified marker of one addon leaves every user's
storage usage unchanged. -/
theorem calc_touched_addons (db : DB) (aid t uid : Nat) :
    calculate_storage_used
        { db with addons := db.addons.map (fun a =>
            if a.id == aid then { a with updated_at := t } else a) } uid
      = calculate_storage_used db uid :=
  congrArg (· + attachment_bytes db uid)
    (touched_filter_map_sum db.versions uid aid t db.addons)

/-- Counting the rows whose id appears among the ids of the first `n`
rows of a sorted permutation: with primary-key ids and `n` within range,
exactly `n` rows survive. -/
theorem filter_keep_ids_length (vs : List Version) (n : Nat)
    (hnd : (vs.map Version.id).Nodup) (hn : n ≤ vs.length) :
    (vs.filter (fun w =>
      (((vs.insertionSort version_order_rel).take n).map Version.id).contains
        w.id)).length = n := by
  have hperm : (vs.insertionSort version_order_rel).Perm vs :=
    List.perm_insertionSort _ _
  have hlenput : (vs.insertionSort version_order_rel).length = vs.length :=
    hperm.length_eq
  have hsortnd : ((vs.insertionSort version_order_rel).map Version.id).Nodup :=
    ((hperm.map Version.id).nodup_iff).mpr hnd
  have hpermf := (hperm.filter (fun w =>
    (((vs.insertionSort version_order_rel).take n).map Version.id).contains
      w.id)).symm
  rw [hpermf.length_eq]
  have hsplit := (List.take_append_drop n (vs.insertionSort version_order_rel)).symm
  rw [show (vs.insertionSort version_order_rel).filter (fun w =>
        (((vs.insertionSort version_order_rel).take n).map Version.id).contains
          w.id) =
      ((vs.insertionSort version_order_rel).take n ++
        (vs.insertionSort version_order_rel).drop n).filter (fun w =>
        (((vs.insertionSort version_order_rel).take n).map Version.id).contains
          w.id) from by rw [← hsplit]]
  rw [List.filter_append]
  have h1 : ((vs.insertionSort version_order_rel).take n).filter (fun w =>
      (((vs.insertionSort version_order_rel).take n).map Version.id).contains
        w.id) = (vs.insertionSort version_order_rel).take n := by
    apply List.filter_eq_self.mpr
    intro w hw
    have : w.id ∈ ((vs.insertionSort version_order_rel).take n).map Version.id :=
      List.mem_map_of_mem Version.id hw
    simpa using this
  have hdisj : (((vs.insertionSort version_order_rel).take n).map
      Version.id).Disjoint
      (((vs.insertionSort version_order_rel).drop n).map Version.id) := by
    have : ((vs.insertionSort version_order_rel).map Version.id).Nodup := hsortnd
    rw [show (vs.insertionSort version_order_rel).map Version.id =
        ((vs.insertionSort version_order_rel).take n).map Version.id ++
          ((vs.insertionSort version_order_rel).drop n).map Version.id from by
      rw [← List.map_append, ← hsplit]] at this
    exact (List.nodup_append.mp this).2.2
  have h2 : ((vs.insertionSort version_order_rel).drop n).filter (fun w =>
      (((vs.insertionSort version_order_rel).take n).map Version.id).contains
        w.id) = [] := by
    apply List.filter_eq_nil_iff.mpr
    intro w hw hcont
    have hmemtake : w.id ∈ ((vs.insertionSort version_order_rel).take n).map
        Version.id := by simpa using hcont
    have hmemdrop : w.id ∈ ((vs.insertionSort version_order_rel).drop n).map
        Version.id := List.mem_map_of_mem Version.id hw
    exact hdisj hmemtake hmemdrop
  rw [h1, h2]
  simp [List.length_take, hlenput]
  omega


/-- Refreshing the cached storage counter touches no version rows. -/
theorem get_version_count_update_storage (db : DB) (u : User) (aid : Nat) :
    get_version_count (update_storage_used db u) aid = get_version_count db aid :=
  rfl

/-- The rows of one addon surviving the cleanup deletion are exactly its
rows whose id is in the keep list. -/
theorem count_after_keep_filter (l : List Version) (aid : Nat)
    (keep : List Nat) :
    (l.filter (fun w => !(w.addon_id == aid && !(keep.contains w.id)))).filter
        (fun v => v.addon_id == aid) =
      (l.filter (fun v => v.addon_id == aid)).filter
        (fun w => keep.contains w.id) := by
  rw [List.filter_filter, List.filter_filter]
  apply List.filter_congr
  intro w _
  cases h1 : (w.addon_id == aid) <;> cases h2 : keep.contains w.id <;>
    simp [h1, h2]

/-- The one cleanup pass of `create_version` never makes room: when the
version-limit check fails, it still fails after `cleanup_old_versions`,
because the pass keeps the newest `limit` rows, leaving at least `limit`
rows whenever the check had failed. -/
theorem version_limit_still_failing (db : DB) (addon : Addon) (user : User)
    (hnd : (db.versions.map Version.id).Nodup)
    (hfail : check_version_limit db addon user = false) :
    check_version_limit (cleanup_old_versions db addon user).1 addon user
      = false := by
  have hcases : get_version_limit_for_tier user.subscription_tier = -1 ∨
      0 < get_version_limit_for_tier user.subscription_tier := by
    cases user.subscription_tier <;>
      simp [get_version_limit_for_tier, version_limit_free, version_limit_pro,
        version_limit_premium]
  rcases hcases with hneg | hpos
  · rw [check_version_limit, hneg] at hfail
    simp at hfail
  · have hne : (get_version_limit_for_tier user.subscription_tier == -1)
        = false := by
      simp only [beq_eq_false_iff_ne, ne_eq]
      omega
    have hcount : ¬((get_version_count db addon.id : Int) <
        get_version_limit_for_tier user.subscription_tier) := by
      rw [check_version_limit, hne] at hfail
      simpa using hfail
    have hvsnd : ((db.versions.filter (fun v => v.addon_id == addon.id)).map
        Version.id).Nodup :=
      hnd.sublist ((List.filter_sublist db.versions).map Version.id)
    have hLle : (get_version_limit_for_tier user.subscription_tier).toNat ≤
        (db.versions.filter (fun v => v.addon_id == addon.id)).length := by
      have : (db.versions.filter (fun v => v.addon_id == addon.id)).length =
          get_version_count db addon.id := rfl
      omega
    have hsortlen : ((db.versions.filter (fun v =>
        v.addon_id == addon.id)).insertionSort version_order_rel).length =
        (db.versions.filter (fun v => v.addon_id == addon.id)).length :=
      (List.perm_insertionSort version_order_rel _).length_eq
    have hkeep := filter_keep_ids_length
      (db.versions.filter (fun v => v.addon_id == addon.id))
      (get_version_limit_for_tier user.subscription_tier).toNat hvsnd hLle
    have hkeeplen : ((((db.versions.filter (fun v =>
        v.addon_id == addon.id)).insertionSort version_order_rel).take
          (get_version_limit_for_tier user.subscription_tier).toNat).map
        Version.id).length =
        (get_version_limit_for_tier user.subscription_tier).toNat := by
      rw [List.length_map, List.length_take, hsortlen]
      omega
    have hkeepne : ((((db.versions.filter (fun v =>
        v.addon_id == addon.id)).insertionSort version_order_rel).take
          (get_version_limit_for_tier user.subscription_tier).toNat).map
        Version.id).isEmpty = false := by
      rw [List.isEmpty_eq_false]
      intro hnil
      rw [hnil] at hkeeplen
      simp at hkeeplen
      omega
    have hclean : (cleanup_old_versions db addon user).1 =
        update_storage_used { db with versions := db.versions.filter (fun w =>
          !(w.addon_id == addon.id &&
            !((((db.versions.filter (fun v =>
                  v.addon_id == addon.id)).insertionSort
                    version_order_rel).take
                (get_version_limit_for_tier user.subscription_tier).toNat).map
              (fun v => v.id)).contains w.id)) } user := by
      simp only [cleanup_old_versions, hne, Bool.false_eq_true, if_false,
        sorted_versions, hkeepne]
    rw [hclean, check_version_limit]
    rw [hne]
    simp only [Bool.false_eq_true, if_false]
    have hcnt : get_version_count (update_storage_used
        { db with versions := db.versions.filter (fun w =>
          !(w.addon_id == addon.id &&
            !((((db.versions.filter (fun v =>
                  v.addon_id == addon.id)).insertionSort
                    version_order_rel).take
                (get_version_limit_for_tier user.subscription_tier).toNat).map
              (fun v => v.id)).contains w.id)) } user) addon.id =
        (get_version_limit_for_tier user.subscription_tier).toNat := by
      rw [get_version_count_update_storage]
      simp only [get_version_count]
      rw [count_after_keep_filter]
      exact hkeep
    rw [hcnt]
    simp only [decide_eq_false_iff_not]
    omega

/-- Refreshing the cached storage counter does not change live usage. -/
theorem calc_update_storage (d : DB) (u : User) (uid : Nat) :
    calculate_storage_used (update_storage_used d u) uid =
      calculate_storage_used d uid := rfl

/-- Deleting a version row filters it out of the version table; the
subsequent counter refresh does not affect live usage. -/
theorem calc_delete (d : DB) (v : Version) (u : User) (uid : Nat) :
    calculate_storage_used (delete_version d v u) uid =
      calculate_storage_used
        { d with versions := d.versions.filter (fun w => !(w.id == v.id)) }
        uid := rfl

/-- Appending a fresh version row, touching the addon marker and
refreshing counters, then deleting that row, restores live usage. -/
theorem roundtrip_core (db : DB) (u : User) (aid t uid new_id : Nat)
    (vL : Version) (hvid : vL.id = new_id)
    (hfresh : ∀ w ∈ db.versions, w.id ≠ new_id) :
    calculate_storage_used (delete_version (update_storage_used
      { db with
        addons := db.addons.map (fun a =>
          if a.id == aid then { a with updated_at := t } else a)
        versions := db.versions ++ [vL] } u) vL u) uid
    = calculate_storage_used db uid := by
  rw [calc_delete]
  refine (calc_storage_congr _ _ uid ?_ ?_ ?_ ?_ ?_).trans
    (calc_touched_addons db aid t uid)
  · rfl
  · show (db.versions ++ [vL]).filter (fun w => !(w.id == vL.id)) = db.versions
    rw [List.filter_append]
    have h1 : db.versions.filter (fun w => !(w.id == vL.id)) = db.versions :=
      List.filter_eq_self.mpr (fun w hw => by
        have hne := hfresh w hw
        simp [hvid]
        omega)
    have h2 : [vL].filter (fun w => !(w.id == vL.id)) = [] := by simp
    rw [h1, h2, List.append_nil]
  · rfl
  · rfl
  · rfl

/-- C7: `calculate_storage_used` is a pure function of the durable rows,
so when a publish succeeds (which, by the no-room lemma above, can only
happen without any eviction), deleting the new version returns the
user's live storage usage to exactly its prior value.  Primary-key ids
are assumed distinct and the new id fresh. -/
theorem create_then_delete_storage_roundtrip (db : DB) (addon : Addon)
    (user : User) (data : VersionCreate) (new_id today now : Nat)
    (db' : DB) (v : Version)
    (hnd : (db.versions.map Version.id).Nodup)
    (hfresh : ∀ w ∈ db.versions, w.id ≠ new_id)
    (hsucc : create_version db addon user data new_id today now = (db', .ok v)) :
    calculate_storage_used (delete_version db' v user) user.id =
      calculate_storage_used db user.id := by
  by_cases hval : is_valid_version data.version = true
  · by_cases hdup : (get_version_by_addon_and_version db addon.id
        data.version).isSome = true
    · simp [create_version, hval, hdup] at hsucc
    · by_cases hquota : check_storage_quota db user
          (calculate_storage_size (data.changelog_content.getD "") +
            calculate_storage_size (data.description.getD "")) 0 = true
      · by_cases hlimit : check_version_limit db addon user = true
        · simp only [create_version, hval, hdup, hquota, hlimit,
            Bool.not_true, Bool.not_false, Bool.false_eq_true, if_false,
            if_true, Bool.not_eq_true] at hsucc
          rw [Prod.mk.injEq] at hsucc
          obtain ⟨hdb, hveq⟩ := hsucc
          subst hdb
          have hveq2 := Except.ok.inj hveq
          subst hveq2
          exact roundtrip_core db user addon.id now user.id new_id _ rfl hfresh
        · have hl' : check_version_limit db addon user = false := by
            simpa using hlimit
          have hfail2 := version_limit_still_failing db addon user hnd hl'
          simp [create_version, hval, hdup, hquota, hl', hfail2] at hsucc
      · have hq' : check_storage_quota db user
            (calculate_storage_size (data.changelog_content.getD "") +
              calculate_storage_size (data.description.getD "")) 0 = false := by
          simpa using hquota
        simp [create_version, hval, hdup, hq'] at hsucc
  · have hv' : is_valid_version data.version = false := by simpa using hval
    simp [create_version, hv'] at hsucc

/-- Witness for C7: publishing "1.0.3" into an empty library and deleting
the created row restores the live usage of user 1. -/
theorem create_then_delete_storage_roundtrip_witness :
    calculate_storage_used
        (delete_version
          (create_version db_empty addon_foo user_free_1 data_new 10 100 100).1
          v_new user_free_1) user_free_1.id =
      calculate_storage_used db_empty user_free_1.id :=
  create_then_delete_storage_roundtrip db_empty addon_foo user_free_1 data_new
    10 100 100
    (create_version db_empty addon_foo user_free_1 data_new 10 100 100).1
    v_new (by decide) (by decide) (by rfl)
